import Mathlib

/-!
Verification of `app/code_output_comparison.py`: a three-strategy output
comparator (exact trimmed string match, JSON structural match, line-by-line
numeric-tolerant match) plus helpers (display truncation, decimal line
parsing).

Modelling conventions for the shallow embedding:

* Python strings are modelled as Lean `String` (sequences of code points);
  operations needing index/length reasoning work on `String.data : List Char`.
* Python `str.strip()` / `str.split()` whitespace is modelled by the ASCII
  whitespace characters space, tab, newline, carriage return, vertical tab
  and form feed (the Unicode-only whitespace code points are not modelled).
* `decimal.Decimal` values arising from finite decimal literals are modelled
  as normalized scaled integers `(m, e)` denoting `m / 10 ^ e` with the
  invariant that trailing zero factors are stripped, so Python's value
  equality on such `Decimal`s is definitional equality of the pairs.
  The special values `NaN` / `Infinity` accepted by `Decimal` are outside
  the model (such tokens fail to parse here).
* `float` conversion and `numpy.allclose` are modelled over `Rat` with the
  numpy default tolerances `rtol = 1e-5`, `atol = 1e-8`; IEEE-754 rounding
  of the conversion is not modelled.
* Parsed JSON documents are modelled by the tagged variant `PyVal`
  (None, bool, number, string, list, tuple, dict).  The `tuple` constructor
  exists because `convert_tuples` in the source branches on tuples; the
  JSON parser itself never produces it.  JSON objects are kept in a
  canonical key-sorted form with a later duplicate key winning, so that
  definitional equality of canonical forms models Python's order-insensitive
  `dict` equality.  Python's `NaN`/`Infinity` JSON extensions are outside
  the model.
-/

/-! ## Python string primitives -/

/-- ASCII whitespace as recognised by Python `str.strip()` / `str.split()`. -/
def is_py_ws (c : Char) : Bool :=
  c = ' ' || c = '\t' || c = '\n' || c = '\r' || c = '\x0b' || c = '\x0c'

/-- Drop leading Python whitespace from a character list. -/
def trimLeft : List Char → List Char
  | [] => []
  | c :: cs => if is_py_ws c then trimLeft cs else c :: cs

/-- Python `str.strip()` on the underlying character list. -/
def pyStripL (cs : List Char) : List Char :=
  trimLeft ((trimLeft cs.reverse).reverse)

/-- Python `str.strip()`. -/
def py_strip (s : String) : String :=
  String.mk (pyStripL s.data)

/-- Python `str.split("\n")`: split at every newline, keeping empty pieces
(`"".split("\n") == [""]`). -/
def splitNl : List Char → List (List Char)
  | [] => [[]]
  | c :: cs =>
    if c = '\n' then [] :: splitNl cs
    else
      match splitNl cs with
      | [] => [[c]]
      | l :: ls => (c :: l) :: ls

/-- Python no-argument `str.split()`: split on runs of whitespace, dropping
empty tokens (`"".split() == []`).  `acc` holds the current token reversed. -/
def pySplitWsAux : List Char → List Char → List (List Char)
  | [], acc => if acc.isEmpty then [] else [acc.reverse]
  | c :: cs, acc =>
    if is_py_ws c then
      if acc.isEmpty then pySplitWsAux cs [] else acc.reverse :: pySplitWsAux cs []
    else pySplitWsAux cs (c :: acc)

/-- Python `line.split()` producing the whitespace-separated tokens of a line. -/
def pyTokens (s : String) : List (List Char) :=
  pySplitWsAux s.data []

/-! ## `truncate_output` -/

/-- `truncate_output(s, length=300)` from the source.  Python's tail slice is
`s[-length // 2:]`, i.e. the last `⌈length / 2⌉` characters — and the whole
string when `length = 0`, since `s[0:]` is `s`. -/
def truncate_output (s : String) (length : Nat := 300) : String :=
  if s.length ≤ length then s
  else
    String.mk (s.data.take (length / 2)) ++ "...(truncated) ..." ++
      (if (length + 1) / 2 = 0 then s
       else String.mk (s.data.drop (s.data.length - (length + 1) / 2)))

/-! ## Decimal values

A finite `decimal.Decimal` is represented by its exact value in the
normalized scaled-integer form `(m, e)` with value `m / 10 ^ e` and no
common factor of `10` left between `m` and `10 ^ e` (unless `e = 0`). -/

/-- Numeric value of a digit list (most significant first). -/
def digitsToNat (ds : List Char) : Nat :=
  ds.foldl (fun acc c => acc * 10 + (c.toNat - '0'.toNat)) 0

/-- Strip factors of ten: divide `m` by 10 and decrement the scale while the
scale is positive and `m` is divisible by 10. -/
def stripZeros : Int → Nat → Int × Nat
  | m, 0 => (m, 0)
  | m, e + 1 => if m % 10 = 0 then stripZeros (m / 10) e else (m, e + 1)

/-- Build the normalized value of a sign, integer digits, fraction digits and
a decimal exponent. -/
def mkDec (sgn : Int) (ip fp : List Char) (expv : Int) : Int × Nat :=
  let m : Int := sgn * (digitsToNat (ip ++ fp) : Int)
  let e : Int := expv - fp.length
  if 0 ≤ e then (m * 10 ^ e.toNat, 0)
  else stripZeros m (-e).toNat

/-- Split an optional leading sign, returning the sign (`1` or `-1`) and the
remainder. -/
def signSplit : List Char → Int × List Char
  | '+' :: r => (1, r)
  | '-' :: r => (-1, r)
  | cs => (1, cs)

/-- The exponent suffix (and end of token) of a `Decimal` literal:
either nothing, or `e`/`E`, an optional sign and at least one digit,
consuming the whole remainder. -/
def parseDecExp (sgn : Int) (ip fp : List Char) : List Char → Option (Int × Nat)
  | [] => some (mkDec sgn ip fp 0)
  | c :: r =>
    if c = 'e' || c = 'E' then
      let (es, r1) := signSplit r
      let (ed, r2) := r1.span Char.isDigit
      if ed.isEmpty || !r2.isEmpty then none
      else some (mkDec sgn ip fp (es * (digitsToNat ed : Int)))
    else none

/-- `decimal.Decimal(token)` on a whole token, for finite decimal literals:
optional sign, digits with an optional fraction (at least one digit in the
integer and fraction parts combined), and an optional exponent.  Tokens such
as `NaN` or `Infinity` are outside the model and fail. -/
def parseDecimal (t : List Char) : Option (Int × Nat) :=
  let (sgn, t1) := signSplit t
  let (ip, t2) := t1.span Char.isDigit
  match t2 with
  | '.' :: r =>
    let (fp, t3) := r.span Char.isDigit
    if ip.isEmpty && fp.isEmpty then none
    else parseDecExp sgn ip fp t3
  | _ =>
    if ip.isEmpty then none else parseDecExp sgn ip [] t2

/-- The list comprehension `[Decimal(elem) for elem in line.split()]` under
its `try`: succeeds only when every token parses. -/
def parseDecList : List (List Char) → Option (List (Int × Nat))
  | [] => some []
  | t :: ts =>
    match parseDecimal t with
    | none => none
    | some d => (parseDecList ts).map fun ds => d :: ds

/-- `convert_line_to_decimals` from the source: split the line on whitespace
and parse every token as a `Decimal`; on any failure return `(False, [])`. -/
def convert_line_to_decimals (line : String) : Bool × List (Int × Nat) :=
  match parseDecList (pyTokens line) with
  | some ds => (true, ds)
  | none => (false, [])

/-! ## Float conversion and `numpy.allclose` -/

/-- `float(d)` for a modelled `Decimal`, as an exact rational. -/
def dec_to_rat (d : Int × Nat) : Rat :=
  (d.1 : Rat) / (10 : Rat) ^ d.2

/-- `numpy.allclose(a, b)` with the default tolerances
`rtol = 1e-5`, `atol = 1e-8`: every element pair satisfies
`|a - b| ≤ atol + rtol * |b|`. -/
def allclose (xs ys : List Rat) : Bool :=
  (List.zip xs ys).all fun p =>
    decide (|p.1 - p.2| ≤ (1 : Rat) / 100000000 + (1 : Rat) / 100000 * |p.2|)

/-! ## Parsed JSON values

`PyVal` is the tagged variant for the Python values that `json.loads` can
return, together with a `tuple` constructor (on which `convert_tuples` in the
source branches, though JSON parsing never builds one).  Numbers are kept as
normalized scaled integers, merging Python's `int`/`float` distinction into
exact value semantics. -/

inductive PyVal where
  | null : PyVal
  | bool (b : Bool) : PyVal
  | num (m : Int) (e : Nat) : PyVal
  | str (s : String) : PyVal
  | list (xs : List PyVal) : PyVal
  | tuple (xs : List PyVal) : PyVal
  | dict (fields : List (String × PyVal)) : PyVal
deriving Inhabited, Repr

mutual

/-- Python `==` on parsed values.  Structural except that a `bool` compares
equal to the numbers `0`/`1` (Python's `bool` is an `int` subclass).  Lists,
tuples and dicts compare elementwise; dicts are kept canonically key-sorted,
so elementwise comparison models Python's order-insensitive dict equality. -/
def pyEq : PyVal → PyVal → Bool
  | .null, .null => true
  | .bool a, .bool b => a == b
  | .bool a, .num m e => decide (m = if a then 1 else 0) && decide (e = 0)
  | .num m e, .bool b => decide (m = if b then 1 else 0) && decide (e = 0)
  | .num m e, .num m' e' => decide (m = m') && decide (e = e')
  | .str a, .str b => a == b
  | .list a, .list b => pyEqList a b
  | .tuple a, .tuple b => pyEqList a b
  | .dict a, .dict b => pyEqFields a b
  | _, _ => false

def pyEqList : List PyVal → List PyVal → Bool
  | [], [] => true
  | a :: as, b :: bs => pyEq a b && pyEqList as bs
  | _, _ => false

def pyEqFields : List (String × PyVal) → List (String × PyVal) → Bool
  | [], [] => true
  | (k, v) :: fs, (k', v') :: fs' => k == k' && pyEq v v' && pyEqFields fs fs'
  | _, _ => false

end

mutual

/-- The local `convert_tuples` closure from `try_json_comparison`: recursively
turn tuples into lists, recursing through lists and tuples only (dict values
are returned unchanged, as in the source). -/
def convert_tuples : PyVal → PyVal
  | .list xs => .list (convert_tuples_list xs)
  | .tuple xs => .list (convert_tuples_list xs)
  | v => v

def convert_tuples_list : List PyVal → List PyVal
  | [] => []
  | x :: xs => convert_tuples x :: convert_tuples_list xs

end

/-- Digit string of a non-negative scaled integer with the decimal point
inserted `e` places from the right. -/
def num_digits_str (n : Nat) (e : Nat) : String :=
  let ds := (toString n).data
  if e = 0 then String.mk ds
  else if ds.length ≤ e then
    "0." ++ String.mk (List.replicate (e - ds.length) '0') ++ String.mk ds
  else
    String.mk (ds.take (ds.length - e)) ++ "." ++ String.mk (ds.drop (ds.length - e))

/-- Python `str` of a modelled number. -/
def num_str (m : Int) (e : Nat) : String :=
  (if m < 0 then "-" else "") ++ num_digits_str m.natAbs e

mutual

/-- Python `repr` of a parsed value (as used for elements inside containers
by `str`): strings get quotes, `True`/`False`/`None` spelling, `[..]`, `(..)`
and `\x7b..\x7d` for lists, tuples and dicts. -/
def py_repr : PyVal → String
  | .null => "None"
  | .bool b => if b then "True" else "False"
  | .num m e => num_str m e
  | .str s => "\x27" ++ s ++ "\x27"
  | .list xs => "[" ++ py_repr_items xs ++ "]"
  | .tuple xs =>
    "(" ++ py_repr_items xs ++ (if xs.length = 1 then ",)" else ")")
  | .dict fs => "\x7b" ++ py_repr_fields fs ++ "\x7d"

def py_repr_items : List PyVal → String
  | [] => ""
  | [x] => py_repr x
  | x :: xs => py_repr x ++ ", " ++ py_repr_items xs

def py_repr_fields : List (String × PyVal) → String
  | [] => ""
  | [(k, v)] => "\x27" ++ k ++ "\x27: " ++ py_repr v
  | (k, v) :: fs => "\x27" ++ k ++ "\x27: " ++ py_repr v ++ ", " ++ py_repr_fields fs

end

/-- Python `str` of a parsed value: the string itself for strings, `repr`
otherwise. -/
def py_str : PyVal → String
  | .str s => s
  | v => py_repr v

/-! ## JSON parsing (`json.loads`)

A fuel-indexed recursive-descent parser for the JSON grammar accepted by
Python's `json.loads` (strict mode), producing `PyVal`s.  Objects are built
with `insertField`, which keeps fields sorted by key and lets a later
duplicate key win, exactly as repeated `dict` assignment does in Python. -/

/-- JSON structural whitespace. -/
def is_json_ws (c : Char) : Bool :=
  c = ' ' || c = '\t' || c = '\n' || c = '\r'

/-- Skip JSON whitespace. -/
def skipJws : List Char → List Char
  | [] => []
  | c :: cs => if is_json_ws c then skipJws cs else c :: cs

/-- Lexicographic order on character lists (the order of Python `str`
comparison, used only to keep dict fields canonical). -/
def charListLt : List Char → List Char → Bool
  | [], [] => false
  | [], _ :: _ => true
  | _ :: _, [] => false
  | a :: as, b :: bs => if a < b then true else if b < a then false else charListLt as bs

/-- Insert a parsed object field, keeping keys sorted; when the key is
already present the existing entry (which came from a LATER occurrence in
the document, since fields are inserted back-to-front) is kept, matching
Python's last-duplicate-wins dict building. -/
def insertField (k : String) (v : PyVal) : List (String × PyVal) → List (String × PyVal)
  | [] => [(k, v)]
  | (k', v') :: fs =>
    if k = k' then (k', v') :: fs
    else if charListLt k.data k'.data then (k, v) :: (k', v') :: fs
    else (k', v') :: insertField k v fs

/-- Value of a hexadecimal digit, if any. -/
def hexVal (c : Char) : Option Nat :=
  if '0' ≤ c ∧ c ≤ '9' then some (c.toNat - '0'.toNat)
  else if 'a' ≤ c ∧ c ≤ 'f' then some (c.toNat - 'a'.toNat + 10)
  else if 'A' ≤ c ∧ c ≤ 'F' then some (c.toNat - 'A'.toNat + 10)
  else none

/-- The body of a JSON string after the opening quote: characters up to the
closing quote, with the JSON escapes; unescaped control characters are
rejected (strict mode).  `acc` holds the parsed characters reversed.
Surrogate-pair recombination of `\u` escapes is not modelled. -/
def parseJStrAux : List Char → List Char → Option (String × List Char)
  | [], _ => none
  | '"' :: rest, acc => some (String.mk acc.reverse, rest)
  | '\\' :: e :: rest, acc =>
    if e = 'u' then
      match rest with
      | h1 :: h2 :: h3 :: h4 :: rest2 =>
        match hexVal h1, hexVal h2, hexVal h3, hexVal h4 with
        | some a, some b, some c, some d =>
          parseJStrAux rest2 (Char.ofNat (((a * 16 + b) * 16 + c) * 16 + d) :: acc)
        | _, _, _, _ => none
      | _ => none
    else if e = '"' then parseJStrAux rest ('"' :: acc)
    else if e = '\\' then parseJStrAux rest ('\\' :: acc)
    else if e = '/' then parseJStrAux rest ('/' :: acc)
    else if e = 'b' then parseJStrAux rest ('\x08' :: acc)
    else if e = 'f' then parseJStrAux rest ('\x0c' :: acc)
    else if e = 'n' then parseJStrAux rest ('\n' :: acc)
    else if e = 'r' then parseJStrAux rest ('\r' :: acc)
    else if e = 't' then parseJStrAux rest ('\t' :: acc)
    else none
  | c :: rest, acc =>
    if c.toNat < 0x20 then none else parseJStrAux rest (c :: acc)

/-- A JSON number's exponent part (optional), yielding the value and rest. -/
def parseJNumExp (sgn : Int) (ip fp : List Char) (rest : List Char) :
    Option ((Int × Nat) × List Char) :=
  match rest with
  | c :: r =>
    if c = 'e' || c = 'E' then
      let (es, r1) := signSplit r
      let (ed, r2) := r1.span Char.isDigit
      if ed.isEmpty then none
      else some (mkDec sgn ip fp (es * (digitsToNat ed : Int)), r2)
    else some (mkDec sgn ip fp 0, rest)
  | [] => some (mkDec sgn ip fp 0, [])

/-- A JSON number's fraction part (optional, at least one digit if present)
followed by the exponent part. -/
def parseJNumFrac (sgn : Int) (ip : List Char) (rest : List Char) :
    Option ((Int × Nat) × List Char) :=
  match rest with
  | '.' :: r =>
    let (fp, r2) := r.span Char.isDigit
    if fp.isEmpty then none else parseJNumExp sgn ip fp r2
  | _ => parseJNumExp sgn ip [] rest

/-- A JSON number: optional `-`, then `0` or a nonzero-led digit run, then
fraction and exponent. -/
def parseJNum (t : List Char) : Option ((Int × Nat) × List Char) :=
  let (sgn, t1) := match t with
    | '-' :: r => ((-1 : Int), r)
    | _ => ((1 : Int), t)
  match t1 with
  | '0' :: r => parseJNumFrac sgn ['0'] r
  | c :: _ =>
    if c.isDigit then
      let (ds, r2) := t1.span Char.isDigit
      parseJNumFrac sgn ds r2
    else none
  | [] => none

mutual

/-- One JSON value starting at the given characters (no leading whitespace),
with `fuel` bounding the recursion depth. -/
def parseVal : Nat → List Char → Option (PyVal × List Char)
  | 0, _ => none
  | fuel + 1, cs =>
    match cs with
    | [] => none
    | c :: rest =>
      if c = 'n' then
        match rest with
        | 'u' :: 'l' :: 'l' :: r => some (.null, r)
        | _ => none
      else if c = 't' then
        match rest with
        | 'r' :: 'u' :: 'e' :: r => some (.bool true, r)
        | _ => none
      else if c = 'f' then
        match rest with
        | 'a' :: 'l' :: 's' :: 'e' :: r => some (.bool false, r)
        | _ => none
      else if c = '"' then
        (parseJStrAux rest []).map fun p => (PyVal.str p.1, p.2)
      else if c = '[' then
        match skipJws rest with
        | ']' :: r2 => some (.list [], r2)
        | r1 => (parseArrayItems fuel r1).map fun p => (PyVal.list p.1, p.2)
      else if c = '{' then
        match skipJws rest with
        | '}' :: r2 => some (.dict [], r2)
        | r1 => (parseObjItems fuel r1).map fun p => (PyVal.dict p.1, p.2)
      else
        (parseJNum cs).map fun p => (PyVal.num p.1.1 p.1.2, p.2)

/-- The comma-separated items of a non-empty JSON array, up to and including
the closing bracket. -/
def parseArrayItems : Nat → List Char → Option (List PyVal × List Char)
  | 0, _ => none
  | fuel + 1, cs =>
    match parseVal fuel cs with
    | some (v, r) =>
      match skipJws r with
      | ',' :: r2 => (parseArrayItems fuel (skipJws r2)).map fun p => (v :: p.1, p.2)
      | ']' :: r2 => some ([v], r2)
      | _ => none
    | none => none

/-- The comma-separated `"key": value` members of a non-empty JSON object,
up to and including the closing brace. -/
def parseObjItems : Nat → List Char → Option (List (String × PyVal) × List Char)
  | 0, _ => none
  | fuel + 1, cs =>
    match cs with
    | '"' :: r =>
      match parseJStrAux r [] with
      | some (k, r1) =>
        match skipJws r1 with
        | ':' :: r2 =>
          match parseVal fuel (skipJws r2) with
          | some (v, r3) =>
            match skipJws r3 with
            | ',' :: r4 => (parseObjItems fuel (skipJws r4)).map fun p => (insertField k v p.1, p.2)
            | '}' :: r4 => some (insertField k v [], r4)
            | _ => none
          | none => none
        | _ => none
      | none => none
    | _ => none

end

/-- `json.loads(s)`: parse one JSON document with surrounding whitespace
allowed and nothing else remaining.  The fuel `2 * n + 4` strictly dominates
the recursion depth, every recursive level of which consumes input. -/
def json_loads (s : String) : Option PyVal :=
  let cs := skipJws s.data
  match parseVal (2 * cs.length + 4) cs with
  | some (v, rest) => if (skipJws rest).isEmpty then some v else none
  | none => none

/-! ## `try_json_comparison` -/

/-- The `isinstance(pred_obj, list) and len(pred_obj) > 0` guard of
`try_json_comparison`: normalize the parsed prediction with
`convert_tuples`, but only when it is a non-empty list. -/
def normalize_pred (pred_obj : PyVal) : PyVal :=
  match pred_obj with
  | .list xs => if 0 < xs.length then convert_tuples (.list xs) else .list xs
  | v => v

/-- `try_json_comparison` from the source: parse both stripped inputs as
JSON (any parse failure is "not valid JSON"); when the parsed prediction is
a non-empty list, normalize it with `convert_tuples`; then compare with
Python `==`. -/
def try_json_comparison (prediction expected : String) : Bool × String :=
  match json_loads (py_strip prediction), json_loads (py_strip expected) with
  | some pred_obj, some exp_obj =>
    let pred_obj2 := normalize_pred pred_obj
    if pyEq pred_obj2 exp_obj then (true, "")
    else
      (false, "JSON objects don't match: " ++ truncate_output (py_str pred_obj2) ++
        " != " ++ truncate_output (py_str exp_obj))
  | _, _ => (false, "Not valid JSON format")

/-- The JSON strategy as the spec words it, for comparison with the source's
version: parse both inputs and compare the two raw parsed values directly
for deep equality, with no tuple normalization anywhere. -/
def try_json_comparison_spec (prediction expected : String) : Bool × String :=
  match json_loads (py_strip prediction), json_loads (py_strip expected) with
  | some pred_obj, some exp_obj =>
    if pyEq pred_obj exp_obj then (true, "")
    else
      (false, "JSON objects don't match: " ++ truncate_output (py_str pred_obj) ++
        " != " ++ truncate_output (py_str exp_obj))
  | _, _ => (false, "Not valid JSON format")

/-! ## Line-by-line strategy -/

/-- `get_stripped_lines` from the source: strip the whole value, split on
newlines, strip each line. -/
def get_stripped_lines (val : String) : List String :=
  (splitNl (pyStripL val.data)).map fun l => String.mk (pyStripL l)

/-- The per-line failure message of the line-by-line strategy. -/
def line_mismatch_msg (line_idx : Nat) (pred_line exp_line : String) : String :=
  "Wrong answer at line " ++ toString line_idx ++ ": " ++
    truncate_output pred_line ++ " != " ++ truncate_output exp_line

/-- The `for line_idx, (pred_line, exp_line) in enumerate(zip(...))` loop of
`enhanced_output_comparison`: exact match, else exact decimal-sequence match,
else `numpy.allclose` on the float conversions, else fail at this index. -/
def compare_lines : Nat → List String → List String → Bool × String
  | _, [], _ => (true, "")
  | _, _ :: _, [] => (true, "")
  | line_idx, pred_line :: ps, exp_line :: es =>
    if pred_line = exp_line then compare_lines (line_idx + 1) ps es
    else
      let cp := convert_line_to_decimals pred_line
      let ce := convert_line_to_decimals exp_line
      if cp.1 && ce.1 then
        if cp.2 = ce.2 then compare_lines (line_idx + 1) ps es
        else
          let pred_floats := cp.2.map dec_to_rat
          let exp_floats := ce.2.map dec_to_rat
          if pred_floats.length = exp_floats.length && allclose pred_floats exp_floats then
            compare_lines (line_idx + 1) ps es
          else (false, line_mismatch_msg line_idx pred_line exp_line)
      else (false, line_mismatch_msg line_idx pred_line exp_line)

/-- Acceptance of one line pair by the loop of the line-by-line strategy:
exactly equal, or both lines parse as decimal sequences that are equal
exactly or within `numpy.allclose` tolerance. -/
def line_pair_ok (pred_line exp_line : String) : Bool :=
  decide (pred_line = exp_line) ||
    (let cp := convert_line_to_decimals pred_line
     let ce := convert_line_to_decimals exp_line
     cp.1 && ce.1 &&
       (decide (cp.2 = ce.2) ||
        (decide ((cp.2.map dec_to_rat).length = (ce.2.map dec_to_rat).length) &&
         allclose (cp.2.map dec_to_rat) (ce.2.map dec_to_rat))))

/-- Strategy 3 of `enhanced_output_comparison` (the body of its `try` block):
line-count check, then the line loop. -/
def strategy3 (prediction expected : String) : Bool × String :=
  let stripped_prediction_lines := get_stripped_lines prediction
  let stripped_expected_lines := get_stripped_lines expected
  if stripped_prediction_lines.length ≠ stripped_expected_lines.length then
    (false, "Wrong answer: mismatched output length. Expected " ++
      toString stripped_expected_lines.length ++ " lines, got " ++
      toString stripped_prediction_lines.length ++ " lines")
  else compare_lines 0 stripped_prediction_lines stripped_expected_lines

/-! ## `enhanced_output_comparison` -/

/-- `enhanced_output_comparison`, generic in the body of its `try` block so
that the `except Exception` handler can be reasoned about: the body either
returns a result (`Except.ok`) or raises (`Except.error e`), in which case
the handler warns the logger (when one is present) and falls back to plain
trimmed-string equality.  Returns the `(is_match, error_message)` pair
together with whether the logger was warned. -/
def enhanced_output_comparison_gen
    (body : String → String → Except String (Bool × String))
    (prediction expected : String) (logger_present : Bool) :
    (Bool × String) × Bool :=
  let prediction_simple := py_strip prediction
  let expected_simple := py_strip expected
  if prediction_simple = expected_simple then ((true, ""), false)
  else
    let json_res := try_json_comparison prediction expected
    if json_res.1 then ((true, ""), false)
    else
      match body prediction expected with
      | .ok r => (r, false)
      | .error e =>
        ((decide (prediction_simple = expected_simple),
          if prediction_simple ≠ expected_simple then "Comparison failed: " ++ e else ""),
         logger_present)

/-- `enhanced_output_comparison` from the source.  In the embedding the
`try` block's body is the total function `strategy3`, so it never raises. -/
def enhanced_output_comparison (prediction expected : String)
    (logger_present : Bool) : Bool × String :=
  (enhanced_output_comparison_gen (fun p e => Except.ok (strategy3 p e))
    prediction expected logger_present).1

/-! ## Basic lemmas -/

theorem str_mk_length (l : List Char) : (String.mk l).length = l.length := rfl

theorem str_length_data (s : String) : s.length = s.data.length := rfl

theorem ne_empty_of_length_pos {s : String} (h : 0 < s.length) : s ≠ "" := by
  intro he
  rw [he] at h
  simp at h

/-- The line-count failure message of strategy 3 is never empty. -/
theorem len_msg_ne_empty (a b : Nat) :
    ("Wrong answer: mismatched output length. Expected " ++ toString a ++
      " lines, got " ++ toString b ++ " lines") ≠ "" := by
  apply ne_empty_of_length_pos
  simp only [String.length_append]
  have : 0 < ("Wrong answer: mismatched output length. Expected " : String).length := by decide
  omega

/-- The per-line failure message of strategy 3 is never empty. -/
theorem line_mismatch_msg_ne_empty (i : Nat) (p e : String) :
    line_mismatch_msg i p e ≠ "" := by
  apply ne_empty_of_length_pos
  simp only [line_mismatch_msg, String.length_append]
  have : 0 < ("Wrong answer at line " : String).length := by decide
  omega

/-! ## Truncation lemmas -/

/-- With the default threshold, an over-long string truncates to head, marker
and tail. -/
theorem truncate_output_of_gt {s : String} (h : 300 < s.length) :
    truncate_output s =
      String.mk (s.data.take 150) ++ "...(truncated) ..." ++
        String.mk (s.data.drop (s.data.length - 150)) := by
  rw [truncate_output, if_neg (by omega)]
  norm_num

/-- With the default threshold, every over-long string truncates to exactly
`150 + 18 + 150 = 318` characters. -/
theorem truncate_output_length_of_gt {s : String} (h : 300 < s.length) :
    (truncate_output s).length = 318 := by
  rw [truncate_output_of_gt h]
  rw [str_length_data] at h
  simp only [String.length_append, str_mk_length, List.length_take, List.length_drop]
  have : ("...(truncated) ..." : String).length = 18 := by decide
  omega

/-! ## Claim theorems -/

/-- C8: With the default threshold 300, `truncate_output` returns its input
unchanged when the length is at most 300, and otherwise returns the first
`⌊300 / 2⌋ = 150` characters, the marker `"...(truncated) ..."`, then the
last 150 characters; a 1000-character value truncates to something strictly
shorter than itself. -/
theorem truncate_output_default_behavior (s : String) :
    (s.length ≤ 300 → truncate_output s = s) ∧
    (300 < s.length → truncate_output s =
      String.mk (s.data.take 150) ++ "...(truncated) ..." ++
        String.mk (s.data.drop (s.data.length - 150))) ∧
    (s.length = 1000 → (truncate_output s).length < s.length) := by
  refine ⟨fun h => ?_, fun h => truncate_output_of_gt h, fun h => ?_⟩
  · rw [truncate_output, if_pos h]
  · rw [truncate_output_length_of_gt (by omega), h]
    omega

theorem truncate_output_default_behavior_witness :
    truncate_output "abc" = "abc" ∧
    (truncate_output (String.mk (List.replicate 1000 'x'))).length <
      (String.mk (List.replicate 1000 'x')).length :=
  ⟨(truncate_output_default_behavior "abc").1 (by decide),
   (truncate_output_default_behavior (String.mk (List.replicate 1000 'x'))).2.2
     (by rw [str_mk_length, List.length_replicate])⟩

/-- C10: Every input longer than the default threshold 300 truncates to a
string of length exactly `318 = 150 + 18 + 150`, independent of the input
length; hence for inputs of length 301 to 317 the "truncated" output is
strictly longer than the input. -/
theorem truncate_output_lengthens_short_inputs (s : String) (h : 300 < s.length) :
    (truncate_output s).length = 318 ∧
    (s.length < 318 → s.length < (truncate_output s).length) := by
  refine ⟨truncate_output_length_of_gt h, fun h2 => ?_⟩
  rw [truncate_output_length_of_gt h]
  omega

theorem truncate_output_lengthens_short_inputs_witness :
    (truncate_output (String.mk (List.replicate 301 'x'))).length = 318 ∧
    (String.mk (List.replicate 301 'x')).length <
      (truncate_output (String.mk (List.replicate 301 'x'))).length := by
  have h := truncate_output_lengthens_short_inputs (String.mk (List.replicate 301 'x'))
    (by rw [str_mk_length, List.length_replicate]; omega)
  exact ⟨h.1, h.2 (by rw [str_mk_length, List.length_replicate]; omega)⟩

/-! ## Result-shape lemmas for the line loop -/

/-- In the line loop, the message is empty exactly when the verdict is a
match. -/
theorem compare_lines_msg_iff :
    ∀ (ps es : List String) (i : Nat),
      ((compare_lines i ps es).2 = "" ↔ (compare_lines i ps es).1 = true) := by
  intro ps
  induction ps with
  | nil => intro es i; simp [compare_lines]
  | cons p ps ih =>
    intro es i
    cases es with
    | nil => simp [compare_lines]
    | cons e es =>
      simp only [compare_lines]
      split
      · exact ih es (i + 1)
      · split
        · split
          · exact ih es (i + 1)
          · split
            · exact ih es (i + 1)
            · simpa using (line_mismatch_msg_ne_empty i p e)
        · simpa using (line_mismatch_msg_ne_empty i p e)

/-- In strategy 3, the message is empty exactly when the verdict is a
match. -/
theorem strategy3_msg_iff (p e : String) :
    ((strategy3 p e).2 = "" ↔ (strategy3 p e).1 = true) := by
  rw [strategy3]
  split
  · simpa using len_msg_ne_empty (get_stripped_lines e).length (get_stripped_lines p).length
  · exact compare_lines_msg_iff _ _ 0

/-- C1: Inputs equal after stripping leading and trailing whitespace (in
particular, any input compared with itself) match with an empty message via
the exact strategy, the first check of `enhanced_output_comparison`. -/
theorem exact_strategy_match (prediction expected : String) (logger_present : Bool)
    (h : py_strip prediction = py_strip expected) :
    enhanced_output_comparison prediction expected logger_present = (true, "") := by
  rw [enhanced_output_comparison, enhanced_output_comparison_gen, if_pos h]

theorem exact_strategy_match_witness :
    enhanced_output_comparison " a b " "a b" true = (true, "") :=
  exact_strategy_match " a b " "a b" true (by decide)

/-- C2: For all inputs and either logger presence, the returned message is
empty exactly when the returned flag says the outputs matched. -/
theorem msg_empty_iff_matched (prediction expected : String) (logger_present : Bool) :
    ((enhanced_output_comparison prediction expected logger_present).2 = "") ↔
      ((enhanced_output_comparison prediction expected logger_present).1 = true) := by
  rw [enhanced_output_comparison, enhanced_output_comparison_gen]
  by_cases h1 : py_strip prediction = py_strip expected
  · simp [h1]
  · rw [if_neg h1]
    dsimp only []
    by_cases h2 : (try_json_comparison prediction expected).1 = true
    · simp [h2]
    · simp only [h2, if_false, Bool.false_eq_true]
      exact strategy3_msg_iff prediction expected

/-- C7: The comparator's `except` handler confines any exception of the
`try` block's body: the logger is warned only when the body raised (and a
logger is present), and whenever the body raises after the exact and JSON
strategies have failed, the final result is the verdict of plain
trimmed-string equality of the original inputs together with a message
naming the failure cause.  Since the result type is a plain pair, every
outcome — whatever the body does — is a definite `(matched, message)`. -/
theorem exception_confinement
    (body : String → String → Except String (Bool × String))
    (prediction expected : String) (logger_present : Bool) :
    ((enhanced_output_comparison_gen body prediction expected logger_present).2 = true →
        logger_present = true ∧ ∃ m, body prediction expected = Except.error m) ∧
    (∀ m, py_strip prediction ≠ py_strip expected →
        (try_json_comparison prediction expected).1 = false →
        body prediction expected = Except.error m →
        enhanced_output_comparison_gen body prediction expected logger_present =
          ((decide (py_strip prediction = py_strip expected),
            "Comparison failed: " ++ m), logger_present)) := by
  constructor
  · rw [enhanced_output_comparison_gen]
    by_cases h1 : py_strip prediction = py_strip expected
    · simp [h1]
    · rw [if_neg h1]
      dsimp only []
      by_cases h2 : (try_json_comparison prediction expected).1 = true
      · simp [h2]
      · simp only [h2, if_false, Bool.false_eq_true]
        cases hb : body prediction expected with
        | ok r => simp [hb]
        | error m => intro hw; simp [hb] at hw; exact ⟨hw, m, rfl⟩
  · intro m h1 h2 h3
    rw [enhanced_output_comparison_gen, if_neg h1]
    dsimp only []
    simp only [h2, if_false, Bool.false_eq_true, h3, if_pos h1]

theorem exception_confinement_witness :
    enhanced_output_comparison_gen (fun _ _ => Except.error "boom") "a" "b" true =
      ((decide (py_strip "a" = py_strip "b"), "Comparison failed: boom"), true) :=
  (exception_confinement (fun _ _ => Except.error "boom") "a" "b" true).2 "boom"
    (by decide) (by decide) rfl

/-- For inputs that reach strategy 3 (exact and JSON strategies both
failed), the comparator's result is exactly strategy 3's result. -/
theorem enhanced_eq_strategy3 (prediction expected : String) (logger_present : Bool)
    (h1 : py_strip prediction ≠ py_strip expected)
    (h2 : (try_json_comparison prediction expected).1 = false) :
    enhanced_output_comparison prediction expected logger_present =
      strategy3 prediction expected := by
  rw [enhanced_output_comparison, enhanced_output_comparison_gen, if_neg h1]
  dsimp only []
  simp only [h2, if_false, Bool.false_eq_true]

/-- C4: When the two inputs reach the line-by-line strategy and their
stripped line counts differ, the comparison fails immediately — whatever the
line contents are — with the message reporting expected versus actual line
counts. -/
theorem line_count_mismatch_fails (prediction expected : String) (logger_present : Bool)
    (h1 : py_strip prediction ≠ py_strip expected)
    (h2 : (try_json_comparison prediction expected).1 = false)
    (h3 : (get_stripped_lines prediction).length ≠ (get_stripped_lines expected).length) :
    enhanced_output_comparison prediction expected logger_present =
      (false, "Wrong answer: mismatched output length. Expected " ++
        toString (get_stripped_lines expected).length ++ " lines, got " ++
        toString (get_stripped_lines prediction).length ++ " lines") := by
  rw [enhanced_eq_strategy3 prediction expected logger_present h1 h2, strategy3, if_pos h3]

theorem line_count_mismatch_fails_witness :
    enhanced_output_comparison "a\nb" "a\nb\nc" true =
      (false, "Wrong answer: mismatched output length. Expected 3 lines, got 2 lines") :=
  (line_count_mismatch_fails "a\nb" "a\nb\nc" true (by decide) (by decide)
    (by decide)).trans rfl

/-- One step of the line loop: a pair accepted by `line_pair_ok` continues,
anything else fails at the current index. -/
theorem compare_lines_cons (i : Nat) (p e : String) (ps es : List String) :
    compare_lines i (p :: ps) (e :: es) =
      if line_pair_ok p e then compare_lines (i + 1) ps es
      else (false, line_mismatch_msg i p e) := by
  by_cases h1 : p = e
  · simp [compare_lines, line_pair_ok, h1]
  · by_cases h2 : ((convert_line_to_decimals p).1 && (convert_line_to_decimals e).1) = true
    · by_cases h3 : (convert_line_to_decimals p).2 = (convert_line_to_decimals e).2
      · simp [compare_lines, line_pair_ok, h1, h2, h3]
      · by_cases h4 : (decide (((convert_line_to_decimals p).2.map dec_to_rat).length =
              ((convert_line_to_decimals e).2.map dec_to_rat).length) &&
            allclose ((convert_line_to_decimals p).2.map dec_to_rat)
              ((convert_line_to_decimals e).2.map dec_to_rat)) = true
        · simp [compare_lines, line_pair_ok, h1, h2, h3, h4]
        · simp [compare_lines, line_pair_ok, h1, h2, h3, h4]
    · simp [compare_lines, line_pair_ok, h1, h2]

/-- Running the line loop over a prefix of accepted pairs followed by a
rejected pair fails at the rejected pair's index, whatever comes after it. -/
theorem compare_lines_first_bad :
    ∀ (pre : List (String × String)) (i : Nat) (bp be : String)
      (post1 post2 : List String),
      (∀ pr ∈ pre, line_pair_ok pr.1 pr.2 = true) →
      line_pair_ok bp be = false →
      compare_lines i (pre.map Prod.fst ++ bp :: post1)
          (pre.map Prod.snd ++ be :: post2) =
        (false, line_mismatch_msg (i + pre.length) bp be) := by
  intro pre
  induction pre with
  | nil =>
    intro i bp be post1 post2 _ hbad
    simpa [hbad] using compare_lines_cons i bp be post1 post2
  | cons pr pre ih =>
    intro i bp be post1 post2 hok hbad
    have hpr : line_pair_ok pr.1 pr.2 = true := hok pr (List.mem_cons_self pr pre)
    have hrest : ∀ q ∈ pre, line_pair_ok q.1 q.2 = true :=
      fun q hq => hok q (List.mem_cons_of_mem pr hq)
    simp only [List.map_cons, List.cons_append]
    rw [compare_lines_cons, if_pos hpr, ih (i + 1) bp be post1 post2 hrest hbad]
    congr 2
    simp only [List.length_cons]
    omega

/-- C5: The first line pair (in index order) that is neither exactly equal
nor accepted by the numeric comparisons makes the whole comparison fail with
the message naming that pair's index and showing both (truncated) line
contents; the lines after it — arbitrary here — do not influence the
result. -/
theorem first_rejected_line_fails (prediction expected : String) (logger_present : Bool)
    (pre : List (String × String)) (bp be : String) (post1 post2 : List String)
    (h1 : py_strip prediction ≠ py_strip expected)
    (h2 : (try_json_comparison prediction expected).1 = false)
    (hp : get_stripped_lines prediction = pre.map Prod.fst ++ bp :: post1)
    (he : get_stripped_lines expected = pre.map Prod.snd ++ be :: post2)
    (hlen : post1.length = post2.length)
    (hok : ∀ pr ∈ pre, line_pair_ok pr.1 pr.2 = true)
    (hbad : line_pair_ok bp be = false) :
    enhanced_output_comparison prediction expected logger_present =
      (false, line_mismatch_msg pre.length bp be) := by
  rw [enhanced_eq_strategy3 prediction expected logger_present h1 h2, strategy3]
  rw [if_neg (by simp [hp, he, hlen])]
  rw [hp, he]
  simpa using compare_lines_first_bad pre 0 bp be post1 post2 hok hbad

theorem first_rejected_line_fails_witness :
    enhanced_output_comparison "abc" "abd" true =
      (false, "Wrong answer at line 0: abc != abd") :=
  (first_rejected_line_fails "abc" "abd" true [] "abc" "abd" [] []
    (by decide) (by decide) rfl rfl rfl (by intro pr h; cases h) (by decide)).trans rfl

/-- A token that fails to parse makes the whole comprehension fail. -/
theorem parseDecList_eq_none :
    ∀ (ts : List (List Char)), (∃ t ∈ ts, parseDecimal t = none) →
      parseDecList ts = none := by
  intro ts
  induction ts with
  | nil => rintro ⟨t, ht, _⟩; cases ht
  | cons t ts ih =>
    rintro ⟨u, hu, hnone⟩
    rcases List.mem_cons.mp hu with h | h
    · subst h
      simp [parseDecList, hnone]
    · rw [parseDecList]
      cases hpt : parseDecimal t with
      | none => rfl
      | some d => rw [ih ⟨u, h, hnone⟩]; rfl

/-- C6: A line pair that is not string-equal but whose lines both parse
completely into decimal sequences that are equal is accepted by the line
loop, which continues with the next line; and a line with any unparsable
token makes the decimal parser report failure with an empty sequence. -/
theorem decimal_equal_line_accepted :
    (∀ (i : Nat) (bp be : String) (ps es : List String),
        bp ≠ be →
        (convert_line_to_decimals bp).1 = true →
        (convert_line_to_decimals be).1 = true →
        (convert_line_to_decimals bp).2 = (convert_line_to_decimals be).2 →
        compare_lines i (bp :: ps) (be :: es) = compare_lines (i + 1) ps es) ∧
    (∀ line : String, (∃ t ∈ pyTokens line, parseDecimal t = none) →
        convert_line_to_decimals line = (false, [])) := by
  constructor
  · intro i bp be ps es hne hp hq heq
    have hok : line_pair_ok bp be = true := by
      simp [line_pair_ok, hne, hp, hq, heq]
    rw [compare_lines_cons, if_pos hok]
  · intro line hex
    rw [convert_line_to_decimals, parseDecList_eq_none (pyTokens line) hex]

theorem decimal_equal_line_accepted_witness :
    compare_lines 0 ["0.5"] ["0.50"] = compare_lines 1 [] [] ∧
    convert_line_to_decimals "a 1" = (false, []) :=
  ⟨decimal_equal_line_accepted.1 0 "0.5" "0.50" [] [] (by decide) rfl rfl rfl,
   decimal_equal_line_accepted.2 "a 1" (by decide)⟩

/-- `convert_tuples` fixes a list whose elements it fixes. -/
theorem convert_tuples_list_id :
    ∀ (xs : List PyVal), (∀ x ∈ xs, convert_tuples x = x) → convert_tuples_list xs = xs := by
  intro xs
  induction xs with
  | nil => intro _; rfl
  | cons x xs ih =>
    intro h
    rw [convert_tuples_list, h x (List.mem_cons_self x xs),
      ih fun y hy => h y (List.mem_cons_of_mem x hy)]

/-- Unfolding of `parseVal` at positive fuel, keeping the fuel variable. -/
theorem parseVal_succ (fuel : Nat) (cs : List Char) :
    parseVal (fuel + 1) cs =
      match cs with
      | [] => none
      | c :: rest =>
        if c = 'n' then
          match rest with
          | 'u' :: 'l' :: 'l' :: r => some (PyVal.null, r)
          | _ => none
        else if c = 't' then
          match rest with
          | 'r' :: 'u' :: 'e' :: r => some (PyVal.bool true, r)
          | _ => none
        else if c = 'f' then
          match rest with
          | 'a' :: 'l' :: 's' :: 'e' :: r => some (PyVal.bool false, r)
          | _ => none
        else if c = '"' then
          (parseJStrAux rest []).map fun p => (PyVal.str p.1, p.2)
        else if c = '[' then
          match skipJws rest with
          | ']' :: r2 => some (.list [], r2)
          | r1 => (parseArrayItems fuel r1).map fun p => (PyVal.list p.1, p.2)
        else if c = '{' then
          match skipJws rest with
          | '}' :: r2 => some (.dict [], r2)
          | r1 => (parseObjItems fuel r1).map fun p => (PyVal.dict p.1, p.2)
        else
          (parseJNum cs).map fun p => (PyVal.num p.1.1 p.1.2, p.2) := rfl

/-- Unfolding of `parseArrayItems` at positive fuel, keeping the fuel
variable. -/
theorem parseArrayItems_succ (fuel : Nat) (cs : List Char) :
    parseArrayItems (fuel + 1) cs =
      match parseVal fuel cs with
      | some (v, r) =>
        match skipJws r with
        | ',' :: r2 => (parseArrayItems fuel (skipJws r2)).map fun p => (v :: p.1, p.2)
        | ']' :: r2 => some ([v], r2)
        | _ => none
      | none => none := rfl

/-- The JSON parser only builds tuple-free values, so `convert_tuples` fixes
everything it returns. -/
theorem parse_fix_convert :
    ∀ fuel : Nat,
      (∀ cs v r, parseVal fuel cs = some (v, r) → convert_tuples v = v) ∧
      (∀ cs xs r, parseArrayItems fuel cs = some (xs, r) →
        ∀ x ∈ xs, convert_tuples x = x) := by
  intro fuel
  induction fuel with
  | zero =>
    exact ⟨fun cs v r h => by simp [parseVal] at h,
      fun cs xs r h => by simp [parseArrayItems] at h⟩
  | succ fuel ih =>
    obtain ⟨ih1, ih2⟩ := ih
    constructor
    · intro cs v r h
      rw [parseVal_succ] at h
      repeat' split at h
      all_goals
        first
        | exact Option.noConfusion h
        | (cases h; rfl)
        | (rw [Option.map_eq_some'] at h
           obtain ⟨a, ha, hfa⟩ := h
           cases hfa
           rfl)
        | (rw [Option.map_eq_some'] at h
           obtain ⟨a, ha, hfa⟩ := h
           cases hfa
           rw [convert_tuples, convert_tuples_list_id a.1 (ih2 _ a.1 a.2 ha)])
    · intro cs xs r h
      rw [parseArrayItems_succ] at h
      repeat' split at h
      all_goals
        first
        | exact Option.noConfusion h
        | (cases h
           intro x hx
           rcases List.mem_cons.mp hx with hx | hx
           · subst hx
             exact ih1 _ _ _ (by assumption)
           · cases hx)
        | (rw [Option.map_eq_some'] at h
           obtain ⟨a, ha, hfa⟩ := h
           cases hfa
           intro x hx
           rcases List.mem_cons.mp hx with hx | hx
           · subst hx
             exact ih1 _ _ _ (by assumption)
           · exact ih2 _ a.1 a.2 ha x hx)

/-- `convert_tuples` fixes everything `json_loads` returns. -/
theorem json_loads_fix_convert (s : String) (v : PyVal)
    (h : json_loads s = some v) : convert_tuples v = v := by
  rw [json_loads] at h
  split at h
  · split at h
    · cases h
      exact (parse_fix_convert _).1 _ _ _ (by assumption)
    · exact Option.noConfusion h
  · exact Option.noConfusion h

/-- The top-level conditional normalization of the parsed prediction is the
identity whenever `convert_tuples` fixes the value. -/
theorem top_list_convert_id (v : PyVal) (hfix : convert_tuples v = v) :
    normalize_pred v = v := by
  cases v <;> simp only [normalize_pred]
  split
  · exact hfix
  · rfl

/-- C9: In the JSON strategy the tuple normalization is a semantic no-op:
it is applied only to the parsed prediction and only when that value is a
non-empty list, and since the parser never produces tuples the normalized
value is the parsed value itself, making the strategy (verdict and message)
exactly the plain deep comparison of the two raw parsed values as the spec
words it. -/
theorem json_normalization_noop (prediction expected : String) :
    try_json_comparison prediction expected =
      try_json_comparison_spec prediction expected := by
  rw [try_json_comparison, try_json_comparison_spec]
  cases hp : json_loads (py_strip prediction) with
  | none => rfl
  | some po =>
    cases he : json_loads (py_strip expected) with
    | none => rfl
    | some eo =>
      dsimp only []
      rw [top_list_convert_id po (json_loads_fix_convert _ _ hp)]

/-- C3: For inputs that are not equal after trimming, the JSON strategy
matches — making the whole comparison succeed with an empty message — when
both trimmed inputs parse as JSON to deeply equal values; and whenever the
parses do not both succeed with equal values (either side unparsable, or
values unequal), the comparison falls through so that its verdict is exactly
the line-by-line strategy's, the JSON failure message playing no part in it. -/
theorem json_strategy_flow (prediction expected : String) (logger_present : Bool)
    (hne : py_strip prediction ≠ py_strip expected) :
    (∀ po eo, json_loads (py_strip prediction) = some po →
        json_loads (py_strip expected) = some eo → pyEq po eo = true →
        enhanced_output_comparison prediction expected logger_present = (true, "")) ∧
    ((∀ po eo, json_loads (py_strip prediction) = some po →
        json_loads (py_strip expected) = some eo → pyEq po eo = false) →
      enhanced_output_comparison prediction expected logger_present =
        strategy3 prediction expected) := by
  constructor
  · intro po eo hp he heq
    have hjson : (try_json_comparison prediction expected).1 = true := by
      rw [try_json_comparison, hp, he]
      dsimp only []
      rw [top_list_convert_id po (json_loads_fix_convert _ _ hp), heq]
      rfl
    rw [enhanced_output_comparison, enhanced_output_comparison_gen, if_neg hne]
    dsimp only []
    simp [hjson]
  · intro hall
    apply enhanced_eq_strategy3 _ _ _ hne
    rw [try_json_comparison]
    cases hp : json_loads (py_strip prediction) with
    | none => rfl
    | some po =>
      cases he : json_loads (py_strip expected) with
      | none => rfl
      | some eo =>
        dsimp only []
        rw [top_list_convert_id po (json_loads_fix_convert _ _ hp), hall po eo hp he]
        rfl

theorem json_strategy_flow_witness :
    enhanced_output_comparison "1.0" "1.00" true = (true, "") ∧
    enhanced_output_comparison "x" "y" true = strategy3 "x" "y" :=
  ⟨(json_strategy_flow "1.0" "1.00" true (by decide)).1 (PyVal.num 1 0) (PyVal.num 1 0)
      rfl rfl rfl,
   (json_strategy_flow "x" "y" true (by decide)).2
      (fun po eo hp _ => by rw [show json_loads (py_strip "x") = none from rfl] at hp; cases hp)⟩
